import Mathlib

/-!
Verification of the remote `getenv` injection engine (`src/getenv.c`).

The C program attaches to a target process with ptrace, injects a
`syscall`/`jmp %rax` prelude at the target's instruction pointer, drives a
remote `mmap`, writes a call trampoline plus the variable name into the
fresh page, runs the target until a breakpoint, copies back the returned
C string, and then restores the target's text and registers before
detaching.

The embedding models:
  * target state as a general-purpose register record plus a byte memory
    `Nat → Nat` (bytes are taken mod 256 where the code reads words);
  * every ptrace request issued by `getenv_process` as an `Event`;
  * kernel/target behaviour (whether each ptrace call succeeds and what a
    single-step or continue does to the target) as an `Env` oracle, so
    that every control-flow path of the C function is represented;
  * `find_library`, `poke_text`, `compute_jmp` and the string-scan loop
    as standalone functions mirroring the corresponding C functions.
-/

/-- The general-purpose registers of the target that `getenv.c` reads or
writes. `user_regs_struct` has further registers; they are carried along
unchanged by every operation modelled here, so they are represented by
the fields the program actually touches. Values are machine words. -/
structure Regs where
  rax : Nat
  rdi : Nat
  rsi : Nat
  rdx : Nat
  r10 : Nat
  r8 : Nat
  r9 : Nat
  rip : Nat
deriving DecidableEq, Repr

/-- A snapshot of the traced process: registers plus byte-addressed memory. -/
structure Target where
  regs : Regs
  mem : Nat → Nat

/-- One ptrace request issued by the controller, as visible at the kernel
boundary. `poke` records a successful text write (address and bytes);
`detach` records a PTRACE_DETACH attempt. -/
inductive Event where
  | attach : Event
  | detach : Event
  | setRegs : Regs → Event
  | poke : Nat → List Nat → Event
  | step : Event
  | contE : Event
deriving DecidableEq, Repr

/-- How a run of `getenv_process` ends: `ret c` models `return c;`,
`exited c` models a direct `exit(c)` call (as in `compute_jmp`), and
`hung` models the string-scan loop never finding a terminating word
(the loop in the C source has no other exit). -/
inductive Outcome where
  | ret : Int → Outcome
  | exited : Nat → Outcome
  | hung : Outcome
deriving DecidableEq, Repr

/-- Result of one run: outcome, final target state, the sequence of ptrace
requests issued, and the bytes written to standard output. -/
structure RunResult where
  outcome : Outcome
  final : Target
  events : List Event
  output : List Nat

/-- Write a list of bytes into memory at consecutive addresses. -/
def writeBytes (mem : Nat → Nat) (a : Nat) : List Nat → (Nat → Nat)
  | [] => mem
  | b :: bs => writeBytes (fun x => if x = a then b else mem x) (a + 1) bs

/-- Read `n` bytes starting at `a` (the PTRACE_PEEKTEXT capture in
`poke_text`). -/
def readBytes (mem : Nat → Nat) (a : Nat) : Nat → List Nat
  | 0 => []
  | n + 1 => mem a :: readBytes mem (a + 1) n

/-- Read `n` bytes starting at `a`, reduced mod 256: the value the program
sees when it reads memory through 32-bit words byte by byte. -/
def readBytesMod (mem : Nat → Nat) (a : Nat) : Nat → List Nat
  | 0 => []
  | n + 1 => (mem a % 256) :: readBytesMod mem (a + 1) n

theorem writeBytes_eq_of_lt (bs : List Nat) (mem : Nat → Nat) (a x : Nat)
    (h : x < a) : writeBytes mem a bs x = mem x := by
  induction bs generalizing mem a with
  | nil => rfl
  | cons b bs ih =>
    rw [writeBytes, ih _ _ (by omega)]
    simp only [if_neg (by omega : ¬ x = a)]

theorem writeBytes_eq_of_ge (bs : List Nat) (mem : Nat → Nat) (a x : Nat)
    (h : a + bs.length ≤ x) : writeBytes mem a bs x = mem x := by
  induction bs generalizing mem a with
  | nil => rfl
  | cons b bs ih =>
    rw [writeBytes, ih _ _ (by simp at h ⊢; omega)]
    simp only [List.length_cons] at h
    simp only [if_neg (by omega : ¬ x = a)]

theorem writeBytes_getD (bs : List Nat) (mem : Nat → Nat) (a j : Nat)
    (h : j < bs.length) : writeBytes mem a bs (a + j) = bs.getD j 0 := by
  induction bs generalizing mem a j with
  | nil => simp at h
  | cons b bs ih =>
    match j with
    | 0 =>
      rw [Nat.add_zero, writeBytes, writeBytes_eq_of_lt _ _ _ _ (by omega)]
      simp
    | j + 1 =>
      rw [writeBytes]
      have : a + (j + 1) = (a + 1) + j := by omega
      rw [this, ih _ _ _ (by simp at h; omega)]
      simp

theorem readBytes_length (mem : Nat → Nat) (a n : Nat) :
    (readBytes mem a n).length = n := by
  induction n generalizing a with
  | zero => rfl
  | succ n ih => rw [readBytes]; simp [ih]

theorem readBytes_getD (mem : Nat → Nat) (a n j : Nat) (h : j < n) :
    (readBytes mem a n).getD j 0 = mem (a + j) := by
  induction n generalizing a j with
  | zero => omega
  | succ n ih =>
    match j with
    | 0 => simp [readBytes]
    | j + 1 =>
      rw [readBytes]
      have : a + (j + 1) = (a + 1) + j := by omega
      simp only [List.getD_cons_succ, this]
      exact ih _ _ (by omega)

/-! ## Mapping inspector (`find_library`, getenv.c lines 25-50)

Strings are modelled as byte lists. A maps line is one `getline` result
(terminated by a newline byte; reading past the end of the C buffer is
modelled as the NUL byte 0). -/

/-- Byte string `" r-xp "` (`text_area`, line 25). -/
def textArea : List Nat := [32, 114, 45, 120, 112, 32]

/-- Byte string `"/libc"` (`libc_string`, line 28). -/
def libcString : List Nat := [47, 108, 105, 98, 99]

/-- Does `pat` occur at the head of `l`? -/
def headMatch : List Nat → List Nat → Bool
  | [], _ => true
  | _ :: _, [] => false
  | p :: ps, c :: cs => p == c && headMatch ps cs

/-- Index of the first occurrence of `pat` in `hay` (C `strstr`, as an
offset rather than a pointer); `none` when absent. -/
def strstrIdx (hay pat : List Nat) : Option Nat :=
  if headMatch pat hay then some 0
  else
    match hay with
    | [] => none
    | _ :: t => (strstrIdx t pat).map (· + 1)

/-- Byte of a line at index `i`; past the end reads as NUL (the C line
buffer is NUL-terminated). -/
def byteAt (l : List Nat) (i : Nat) : Nat := l.getD i 0

/-- Value of a hex digit byte, if it is one. -/
def hexDigitVal (c : Nat) : Option Nat :=
  if 48 ≤ c ∧ c ≤ 57 then some (c - 48)
  else if 97 ≤ c ∧ c ≤ 102 then some (c - 87)
  else if 65 ≤ c ∧ c ≤ 70 then some (c - 55)
  else none

def parseHexAux : List Nat → Nat → Nat
  | [], acc => acc
  | c :: t, acc =>
    match hexDigitVal c with
    | some d => parseHexAux t (acc * 16 + d)
    | none => acc

/-- Leading hexadecimal number of a maps line (`strtol(line, NULL, 16)`
on a line that starts with the address field). -/
def parseHex (l : List Nat) : Nat := parseHexAux l 0

/-- `find_library` (lines 31-50) over the list of maps lines for the pid:
return the parsed start address of the first line that contains the
needle, contains `" r-xp "`, and whose byte at offset `strlen(libc_string)`
**from the start of the needle match** is not a lowercase letter. Note
the C code indexes `pos[strlen(libc_string)]`, i.e. always offset 5,
regardless of the needle argument's own length. -/
def find_library (lines : List (List Nat)) (libname : List Nat) : Option Nat :=
  match lines with
  | [] => none
  | line :: rest =>
    match strstrIdx line libname with
    | some pos =>
      if (strstrIdx line textArea).isSome
          && (byteAt line (pos + libcString.length) < 97
              || 122 < byteAt line (pos + libcString.length)) then
        some (parseHex line)
      else find_library rest libname
    | none => find_library rest libname

/-- Modelled from the spec (section 4.1): the inspector as specified,
where the character examined is the one immediately after the matched
needle, i.e. at offset `libname.length` from the match. Used to compare
the code against the spec's words. -/
def specFindLibrary (lines : List (List Nat)) (libname : List Nat) : Option Nat :=
  match lines with
  | [] => none
  | line :: rest =>
    match strstrIdx line libname with
    | some pos =>
      if (strstrIdx line textArea).isSome
          && (byteAt line (pos + libname.length) < 97
              || 122 < byteAt line (pos + libname.length)) then
        some (parseHex line)
      else specFindLibrary rest libname
    | none => specFindLibrary rest libname

/-- Bytes of a string literal, for writing concrete maps lines. -/
def asBytes (s : String) : List Nat := s.toList.map Char.toNat

/-! ## Debug transport: `poke_text` (lines 56-81) -/

/-- `poke_text`: the length check happens before any ptrace request, so an
invalid length returns an error (`none`) with an empty event list. A valid
write updates memory and issues ptrace requests (summarised as one `poke`
event). The `old_text` capture is modelled at the call sites via
`readBytes`. -/
def poke_text (mem : Nat → Nat) (addr : Nat) (new : List Nat) :
    Option (Nat → Nat) × List Event :=
  if new.length % 8 ≠ 0 then (none, [])
  else (some (writeBytes mem addr new), [Event.poke addr new])

/-! ## Symbol locator: `compute_jmp` (lines 129-137) -/

/-- `compute_jmp from to`: the rel32 displacement `to - from - 5`.
`Except.error` models the bare `exit(1)` the C function performs when the
displacement does not fit a signed 32-bit integer. -/
def compute_jmp (fromA toA : Int) : Except Unit Int :=
  if toA - fromA - 5 < -2147483648 ∨ 2147483647 < toA - fromA - 5 then
    Except.error ()
  else Except.ok (toA - fromA - 5)

/-! ## Trampoline block size (lines 276-278) and rel32 encoding -/

/-- `blocksize = 32; while (blocksize < memsize) blocksize <<= 1;`
modelled with a fuel argument (`fuel = memsize` always suffices, see
`growAux_ge`). -/
def growAux (m : Nat) : Nat → Nat → Nat
  | b, 0 => b
  | b, fuel + 1 => if b < m then growAux m (b * 2) fuel else b

def blocksizeOf (m : Nat) : Nat := growAux m 32 m

theorem growAux_dvd (m : Nat) (fuel b : Nat) (h : 8 ∣ b) :
    8 ∣ growAux m b fuel := by
  induction fuel generalizing b with
  | zero => exact h
  | succ fuel ih =>
    rw [growAux]
    by_cases hb : b < m
    · rw [if_pos hb]; exact ih _ (Dvd.dvd.mul_right h 2)
    · rw [if_neg hb]; exact h

theorem blocksizeOf_dvd (m : Nat) : 8 ∣ blocksizeOf m :=
  growAux_dvd m m 32 (by omega)

theorem growAux_ge (m : Nat) (fuel b : Nat) (hb : 0 < b) (h : m ≤ b + fuel) :
    m ≤ growAux m b fuel := by
  induction fuel generalizing b with
  | zero => rw [growAux]; omega
  | succ fuel ih =>
    rw [growAux]
    by_cases hbm : b < m
    · rw [if_pos hbm]; exact ih _ (by omega) (by omega)
    · rw [if_neg hbm]; omega

theorem blocksizeOf_ge (m : Nat) : m ≤ blocksizeOf m :=
  growAux_ge m m 32 (by omega) (by omega)

theorem blocksizeOf_ge32 (m : Nat) : 32 ≤ blocksizeOf m := by
  have h : ∀ fuel b, 32 ≤ b → 32 ≤ growAux m b fuel := by
    intro fuel
    induction fuel with
    | zero => intro b hb; rw [growAux]; exact hb
    | succ fuel ih =>
      intro b hb
      rw [growAux]
      by_cases hbm : b < m
      · rw [if_pos hbm]; exact ih _ (by omega)
      · rw [if_neg hbm]; exact hb
  exact h m 32 (by omega)

/-- Little-endian bytes of an `int32_t` value (the `memmove` of
`getenv_delta` into the trampoline). -/
def enc32 (d : Int) : List Nat :=
  [(d.emod 4294967296).toNat % 256,
   (d.emod 4294967296).toNat / 256 % 256,
   (d.emod 4294967296).toNat / 65536 % 256,
   (d.emod 4294967296).toNat / 16777216 % 256]

theorem enc32_length (d : Int) : (enc32 d).length = 4 := rfl

/-! ## Returned-string scan (lines 337-356)

`ptrace(PTRACE_PEEKDATA, ...)` returns a long whose low 32 bits become
`uint32_t data`; on x86-64 those are the four bytes at the address,
little-endian. A PEEKDATA failure returns -1, which truncates to the
all-ones word 4294967295 — the loop does not check `errno`. -/

/-- The 32-bit word the scan loop reads at address `a`. -/
def word32At (mem : Nat → Nat) (a : Nat) : Nat :=
  mem a % 256 + 256 * (mem (a + 1) % 256) + 65536 * (mem (a + 2) % 256)
    + 16777216 * (mem (a + 3) % 256)

/-- The loop's break condition, literally as written in the C source:
`data << 24 < 0x1000000 || data << 16 < 0x1000000 || data << 8 < 0x1000000
|| data < 0x1000000` with `uint32_t` arithmetic. -/
def breakCond (d : Nat) : Bool :=
  decide ((d <<< 24) % 4294967296 < 16777216)
    || decide ((d <<< 16) % 4294967296 < 16777216)
    || decide ((d <<< 8) % 4294967296 < 16777216)
    || decide (d % 4294967296 < 16777216)

/-- For a word made of four bytes, the C break condition holds exactly
when one of the four bytes is zero ("a byte below 0x01"). -/
theorem breakCond_iff (b0 b1 b2 b3 : Nat) (h0 : b0 < 256) (h1 : b1 < 256)
    (h2 : b2 < 256) (h3 : b3 < 256) :
    breakCond (b0 + 256 * b1 + 65536 * b2 + 16777216 * b3) = true ↔
      (b0 = 0 ∨ b1 = 0 ∨ b2 = 0 ∨ b3 = 0) := by
  simp only [breakCond, Nat.shiftLeft_eq, Bool.or_eq_true, decide_eq_true_eq]
  constructor
  · intro h
    rcases h with ((h | h) | h) | h <;> omega
  · intro h
    rcases h with h | h | h | h
    · left; left; left; omega
    · left; left; right; omega
    · left; right; omega
    · right; omega

theorem breakCond_allOnes : breakCond 4294967295 = false := by decide

/-- The scan loop: starting at `a`, read words of four bytes until the
break condition holds. Returns the number of words consumed (so the C
`slen` is four times this), or `none` when `fuel` words pass without a
break — the C loop would still be running. -/
def scanWords (mem : Nat → Nat) (a : Nat) : Nat → Option Nat
  | 0 => none
  | fuel + 1 =>
    if breakCond (word32At mem a) then some 1
    else (scanWords mem (a + 4) fuel).map (· + 1)

/-- The copy loop (lines 348-354): `slen / 4` words are read again and
stored into the buffer; byte for byte this is the first `4 * k` bytes of
target memory at the returned address. -/
def copyWords (mem : Nat → Nat) (a : Nat) (k : Nat) : List Nat :=
  readBytesMod mem a (4 * k)

/-- What `printf("%s\n", buf)` prints of the buffer (up to the first NUL),
without the newline. -/
def cString (l : List Nat) : List Nat := l.takeWhile (fun b => b != 0)

/-- The full non-null branch: scan, copy, and trim at the first NUL. -/
def readCString (mem : Nat → Nat) (a : Nat) (fuel : Nat) : Option (List Nat) :=
  (scanWords mem a fuel).map (fun k => cString (copyWords mem a k))

/-- If the bytes at `a, ..., a + L - 1` are nonzero and the byte at
`a + L` is zero, the scan stops after exactly `L / 4 + 1` words. -/
theorem scanWords_zero_at (mem : Nat → Nat) (L : Nat) :
    ∀ a fuel, (∀ i, i < L → mem (a + i) % 256 ≠ 0) → mem (a + L) % 256 = 0 →
    L / 4 < fuel → scanWords mem a fuel = some (L / 4 + 1) := by
  induction L using Nat.strong_induction_on with
  | _ L ih =>
    intro a fuel hnz hz hfuel
    match fuel with
    | 0 => omega
    | fuel + 1 =>
      rw [scanWords]
      have hw : word32At mem a =
          mem a % 256 + 256 * (mem (a + 1) % 256) + 65536 * (mem (a + 2) % 256)
            + 16777216 * (mem (a + 3) % 256) := rfl
      by_cases hL : L < 4
      · have hbc : breakCond (word32At mem a) = true := by
          rw [hw]
          rw [breakCond_iff _ _ _ _ (Nat.mod_lt _ (by omega)) (Nat.mod_lt _ (by omega))
            (Nat.mod_lt _ (by omega)) (Nat.mod_lt _ (by omega))]
          match L, hL with
          | 0, _ => left; simpa using hz
          | 1, _ => right; left; exact hz
          | 2, _ => right; right; left; exact hz
          | 3, _ => right; right; right; exact hz
        rw [if_pos hbc]
        have : L / 4 = 0 := by omega
        rw [this]
      · have hbc : breakCond (word32At mem a) = false := by
          rw [hw]
          have := breakCond_iff (mem a % 256) (mem (a + 1) % 256) (mem (a + 2) % 256)
            (mem (a + 3) % 256) (Nat.mod_lt _ (by omega)) (Nat.mod_lt _ (by omega))
            (Nat.mod_lt _ (by omega)) (Nat.mod_lt _ (by omega))
          rw [Bool.eq_false_iff]
          intro hcontra
          have hor := this.mp hcontra
          have e0 := hnz 0 (by omega)
          have e1 := hnz 1 (by omega)
          have e2 := hnz 2 (by omega)
          have e3 := hnz 3 (by omega)
          simp only [Nat.add_zero] at e0
          rcases hor with h | h | h | h
          · exact e0 h
          · exact e1 h
          · exact e2 h
          · exact e3 h
        rw [if_neg (by simp [hbc])]
        have hrec := ih (L - 4) (by omega) (a + 4) fuel
          (fun i hi => by
            have := hnz (4 + i) (by omega)
            simpa [Nat.add_assoc] using this)
          (by
            have : a + 4 + (L - 4) = a + L := by omega
            rw [this]; exact hz)
          (by omega)
        rw [hrec]
        have harith : (L - 4) / 4 + 1 + 1 = L / 4 + 1 := by omega
        simp [harith]

/-- If the memory at `a` encodes the NUL-terminated string `v` (all
entries nonzero), the copy-and-trim of any block extending past the
terminator yields exactly `v`. -/
theorem cString_readBytesMod (mem : Nat → Nat) (v : List Nat) :
    ∀ a n, v.length < n →
    (∀ i, i < v.length → mem (a + i) % 256 = v.getD i 0) →
    (∀ b, b ∈ v → b ≠ 0) →
    mem (a + v.length) % 256 = 0 →
    cString (readBytesMod mem a n) = v := by
  induction v with
  | nil =>
    intro a n hn henc h0 hterm
    match n with
    | n + 1 =>
      rw [readBytesMod, cString]
      simp only [List.length_nil, Nat.add_zero] at hterm
      simp [hterm]
  | cons b w ih =>
    intro a n hn henc h0 hterm
    match n with
    | n + 1 =>
      rw [readBytesMod, cString]
      have hb : mem a % 256 = b := by simpa using henc 0 (by simp)
      have hbne : b ≠ 0 := h0 b (by simp)
      rw [List.takeWhile_cons]
      rw [hb]
      rw [if_pos (by simpa [bne_iff_ne] using hbne)]
      have htail : cString (readBytesMod mem (a + 1) n) = w := by
        apply ih (a + 1) n (by simpa using hn)
        · intro i hi
          have := henc (i + 1) (by simpa using Nat.succ_lt_succ hi)
          simpa [Nat.add_assoc, Nat.add_comm 1 i] using this
        · intro c hc; exact h0 c (by simp [hc])
        · have : a + 1 + w.length = a + (w.length + 1) := by omega
          rw [this]
          simpa using hterm
      rw [cString] at htail
      rw [htail]

/-! ## The engine: `getenv_process` (lines 139-440)

The oracle `Env` decides, for each kernel interaction the C function
performs (in program order), whether it succeeds, and what each
execution step (single-step or continue) does to the target. Memory
effects of execution steps are arbitrary functions, so theorems about
restoration state their frame conditions explicitly.

Flag naming, in source order:
  `attachOk` PTRACE_ATTACH (141), `waitOk` waitpid (148),
  `g0`..`g5` the six PTRACE_GETREGS (155, 204, 224, 333, 374, 405),
  `p0`..`p4` the five engine `poke_text` calls (188, 300, 305, 366, 414),
  `pF` the failure-path poke (435), `s0`..`s4` the five PTRACE_SETREGS
  (193, 319, 359, 393, 419), `st1`/`st2`/`st4`/`st5` the four
  single-steps (199, 220, 371, 402), `c3` the continue-and-wait
  (328-329), `d1` the success-path PTRACE_DETACH (428).
  `eff1`/`eff2`/`eff3`/`eff4`/`eff5` are the target-state transitions
  performed by the target while it runs (mmap syscall, jump to the
  page, the getenv call up to the breakpoint, jump back, munmap
  syscall). `theirLibc`/`ourLibc`/`ourGetenv` are the `find_library`
  results and local `getenv` address (lines 255-257); `j4`..`j7` are the
  four uninitialised trailing bytes of the stack buffer `new_word`;
  `scanFuel` bounds the modelled scan loop. -/
structure Env where
  attachOk : Bool
  waitOk : Bool
  g0 : Bool
  g1 : Bool
  g2 : Bool
  g3 : Bool
  g4 : Bool
  g5 : Bool
  p0 : Bool
  p1 : Bool
  p2 : Bool
  p3 : Bool
  p4 : Bool
  pF : Bool
  s0 : Bool
  s1 : Bool
  s2 : Bool
  s3 : Bool
  s4 : Bool
  st1 : Bool
  st2 : Bool
  c3 : Bool
  st4 : Bool
  st5 : Bool
  d1 : Bool
  eff1 : Target → Target
  eff2 : Target → Target
  eff3 : Target → Target
  eff4 : Target → Target
  eff5 : Target → Target
  theirLibc : Int
  ourLibc : Int
  ourGetenv : Int
  j4 : Nat
  j5 : Nat
  j6 : Nat
  j7 : Nat
  scanFuel : Nat

/-- The baseline instruction pointer (`void *rip = (void *)oldregs.rip`). -/
def rip0 (init : Target) : Nat := init.regs.rip

/-- `old_word`: the eight bytes captured at the baseline rip by the first
`poke_text` (line 188), read from the pristine initial memory. -/
def oldw (init : Target) : List Nat := readBytes init.mem (rip0 init) 8

/-- `new_word` as first assembled (lines 182-185): `0f 05` (syscall),
`ff e0` (jmp %rax), then four uninitialised bytes. -/
def newWord (env : Env) : List Nat := [15, 5, 255, 224, env.j4, env.j5, env.j6, env.j7]

/-- `new_word` after lines 364-365: `ff e0` (jmp %rax) over the first two
bytes; bytes 2-7 keep their previous values. -/
def jmpWord (env : Env) : List Nat := [255, 224, 255, 224, env.j4, env.j5, env.j6, env.j7]

/-- The working register snapshot for the remote mmap (lines 170-178):
rax=9 (mmap), rdi=0, rsi=PAGE_SIZE, rdx=PROT_READ|PROT_EXEC,
r10=MAP_PRIVATE|MAP_ANONYMOUS, r8=-1 (as a 64-bit word), r9=0. -/
def mmapArgRegs (r : Regs) : Regs :=
  { r with rax := 9, rdi := 0, rsi := 4096, rdx := 5, r10 := 34,
           r8 := 18446744073709551615, r9 := 0 }

/-- State after the first poke (line 188): syscall prelude at the rip. -/
def stPoke1 (env : Env) (init : Target) : Target :=
  ⟨init.regs, writeBytes init.mem (rip0 init) (newWord env)⟩

/-- State after PTRACE_SETREGS with the mmap arguments (line 193). -/
def stRegs1 (env : Env) (init : Target) : Target :=
  ⟨mmapArgRegs init.regs, (stPoke1 env init).mem⟩

/-- State after the single-step that executes the mmap syscall (line 199). -/
def stStep1 (env : Env) (init : Target) : Target := env.eff1 (stRegs1 env init)

/-- `mmap_memory`: rax as read back after the mmap step (line 210). -/
def mmOf (env : Env) (init : Target) : Nat := (stStep1 env init).regs.rax

/-- State after the single-step that executes `jmp %rax` (line 220). -/
def stStep2 (env : Env) (init : Target) : Target := env.eff2 (stStep1 env init)

/-- `their_getenv = their_libc + ((void *)getenv - our_libc)` (line 257). -/
def theirGetenv (env : Env) : Int := env.theirLibc + (env.ourGetenv - env.ourLibc)

/-- The rel32 displacement `compute_jmp(mmap_memory, their_getenv)`. -/
def deltaOf (env : Env) (init : Target) : Int :=
  theirGetenv env - (mmOf env init : Int) - 5

/-- `memsize = strlen(env) + 6` (line 276). -/
def memsizeOf (name : List Nat) : Nat := name.length + 6

/-- The padded trampoline block size (lines 277-278). -/
def blockOf (name : List Nat) : Nat := blocksizeOf (memsizeOf name)

/-- The trampoline block (lines 281-294): `e8` + rel32 + `cc` + the name
bytes + calloc zero padding up to the block size. -/
def trampoline (env : Env) (init : Target) (name : List Nat) : List Nat :=
  [232] ++ enc32 (deltaOf env init) ++ [204] ++ name
    ++ List.replicate (blockOf name - memsizeOf name) 0

/-- State after poking the trampoline into the scratch page (line 300). -/
def stPokeT (env : Env) (init : Target) (name : List Nat) : Target :=
  ⟨(stStep2 env init).regs,
   writeBytes (stStep2 env init).mem (mmOf env init) (trampoline env init name)⟩

/-- State after re-poking the syscall prelude at the rip (line 305). -/
def stPoke2 (env : Env) (init : Target) (name : List Nat) : Target :=
  ⟨(stPokeT env init name).regs,
   writeBytes (stPokeT env init name).mem (rip0 init) (newWord env)⟩

/-- The register file installed for the remote call (lines 311-313):
the post-jump registers with rax=0 and rdi pointing at the name bytes. -/
def callRegs (env : Env) (init : Target) : Regs :=
  { (stStep2 env init).regs with rax := 0, rdi := mmOf env init + 6 }

/-- State after PTRACE_SETREGS for the call (line 319). -/
def stRegs2 (env : Env) (init : Target) (name : List Nat) : Target :=
  ⟨callRegs env init, (stPoke2 env init name).mem⟩

/-- State when the target stops at the breakpoint after the remote
getenv call (lines 328-329). -/
def stCont (env : Env) (init : Target) (name : List Nat) : Target :=
  env.eff3 (stRegs2 env init name)

/-- The remote call's return value: rax as read at line 337. -/
def raxRes (env : Env) (init : Target) (name : List Nat) : Nat :=
  (stCont env init name).regs.rax

/-- Standard-output bytes produced by lines 337-357: nothing when the
remote getenv returned NULL, otherwise the scanned-and-copied string
followed by a newline; `none` when the scan loop never breaks. -/
def printedOf (env : Env) (init : Target) (name : List Nat) : Option (List Nat) :=
  if raxRes env init name = 0 then some []
  else
    (readCString (stCont env init name).mem (raxRes env init name) env.scanFuel).map
      (fun s => s ++ [10])

/-- The jump-back registers (line 358): post-call registers with rax set
to the baseline rip. -/
def jRegs (env : Env) (init : Target) (name : List Nat) : Regs :=
  { (stCont env init name).regs with rax := rip0 init }

/-- State after PTRACE_SETREGS of the jump-back registers (line 359). -/
def stRegs3 (env : Env) (init : Target) (name : List Nat) : Target :=
  ⟨jRegs env init name, (stCont env init name).mem⟩

/-- State after poking `jmp %rax` at the *current* rip (line 366) — note
the write goes to `newregs.rip`, i.e. wherever the trap left the target
(inside the scratch page), not to the baseline rip. The C code ignores
this poke's result, so a failed poke just leaves memory unchanged. -/
def stPoke3 (env : Env) (init : Target) (name : List Nat) : Target :=
  if env.p3 then
    ⟨(stRegs3 env init name).regs,
     writeBytes (stRegs3 env init name).mem (jRegs env init name).rip (jmpWord env)⟩
  else stRegs3 env init name

/-- State after the single-step that executes the jump back (line 371). -/
def stStep4 (env : Env) (init : Target) (name : List Nat) : Target :=
  env.eff4 (stPoke3 env init name)

/-- The munmap register file (lines 390-392): rax=11 (munmap),
rdi=mmap_memory, rsi=PAGE_SIZE. -/
def munRegs (env : Env) (init : Target) (name : List Nat) : Regs :=
  { (stStep4 env init name).regs with rax := 11, rdi := mmOf env init, rsi := 4096 }

/-- State after PTRACE_SETREGS of the munmap arguments (line 393). -/
def stRegs4 (env : Env) (init : Target) (name : List Nat) : Target :=
  ⟨munRegs env init name, (stStep4 env init name).mem⟩

/-- State after the single-step that executes the munmap syscall (line 402). -/
def stStep5 (env : Env) (init : Target) (name : List Nat) : Target :=
  env.eff5 (stRegs4 env init name)

/-- State after restoring the saved word at the baseline rip (line 414);
the result of this poke is also ignored by the C code. -/
def stPoke4 (env : Env) (init : Target) (name : List Nat) : Target :=
  if env.p4 then
    ⟨(stStep5 env init name).regs,
     writeBytes (stStep5 env init name).mem (rip0 init) (oldw init)⟩
  else stStep5 env init name

/-- State after reinstalling the baseline registers (line 419). -/
def stFinal (env : Env) (init : Target) (name : List Nat) : Target :=
  ⟨init.regs, (stPoke4 env init name).mem⟩

/-! Cumulative ptrace event lists along the success path. -/

def evA : List Event := [Event.attach]

def evB (env : Env) (init : Target) : List Event :=
  evA ++ [Event.poke (rip0 init) (newWord env)]

def evC (env : Env) (init : Target) : List Event :=
  evB env init ++ [Event.setRegs (mmapArgRegs init.regs)]

def evD (env : Env) (init : Target) : List Event := evC env init ++ [Event.step]

def evE (env : Env) (init : Target) : List Event := evD env init ++ [Event.step]

def evF (env : Env) (init : Target) (name : List Nat) : List Event :=
  evE env init ++ [Event.poke (mmOf env init) (trampoline env init name)]

def evG (env : Env) (init : Target) (name : List Nat) : List Event :=
  evF env init name ++ [Event.poke (rip0 init) (newWord env)]

def evH (env : Env) (init : Target) (name : List Nat) : List Event :=
  evG env init name ++ [Event.setRegs (callRegs env init), Event.contE]

def evI (env : Env) (init : Target) (name : List Nat) : List Event :=
  evH env init name ++ [Event.setRegs (jRegs env init name)]
    ++ (if env.p3 then [Event.poke (jRegs env init name).rip (jmpWord env)] else [])
    ++ [Event.step]

def evJ (env : Env) (init : Target) (name : List Nat) : List Event :=
  evI env init name ++ [Event.setRegs (munRegs env init name), Event.step]

def evK (env : Env) (init : Target) (name : List Nat) : List Event :=
  evJ env init name
    ++ (if env.p4 then [Event.poke (rip0 init) (oldw init)] else [])
    ++ [Event.setRegs init.regs]

/-- The full ptrace request trace of a successful run, ending in the
PTRACE_DETACH. -/
def succEvents (env : Env) (init : Target) (name : List Nat) : List Event :=
  evK env init name ++ [Event.detach]

/-- The `fail:` label (lines 434-439): best-effort re-poke of the saved
word at the baseline rip (result ignored), a PTRACE_DETACH attempt, and
`return 1`. -/
def failPath (env : Env) (init : Target) (t : Target) (ev : List Event)
    (out : List Nat) : RunResult :=
  ⟨Outcome.ret 1,
   (if env.pF then ⟨t.regs, writeBytes t.mem (rip0 init) (oldw init)⟩ else t),
   ev ++ (if env.pF then [Event.poke (rip0 init) (oldw init)] else [])
      ++ [Event.detach],
   out⟩

/-- `getenv_process` (lines 139-440), one branch per kernel interaction,
in source order. Early `return -1` paths (attach, waitpid, the first
GETREGS, and the GETREGS at line 204) do not run the failure path; all
`goto fail` branches do; the displacement overflow calls `exit(1)`
inside `compute_jmp` without any cleanup. -/
def getenv_process (env : Env) (init : Target) (name : List Nat) : RunResult :=
  if env.attachOk = false then ⟨Outcome.ret (-1), init, [], []⟩ else
  if env.waitOk = false then ⟨Outcome.ret (-1), init, evA, []⟩ else
  if env.g0 = false then ⟨Outcome.ret (-1), init, evA ++ [Event.detach], []⟩ else
  if env.p0 = false then failPath env init init evA [] else
  if env.s0 = false then failPath env init (stPoke1 env init) (evB env init) [] else
  if env.st1 = false then failPath env init (stStep1 env init) (evD env init) [] else
  if env.g1 = false then ⟨Outcome.ret (-1), stStep1 env init, evD env init, []⟩ else
  if mmOf env init = 18446744073709551615 then
    failPath env init (stStep1 env init) (evD env init) [] else
  if env.st2 = false then failPath env init (stStep2 env init) (evE env init) [] else
  if env.g2 = false then failPath env init (stStep2 env init) (evE env init) [] else
  if (stStep2 env init).regs.rip = mmOf env init then
    match compute_jmp (mmOf env init) (theirGetenv env) with
    | Except.error _ => ⟨Outcome.exited 1, stStep2 env init, evE env init, []⟩
    | Except.ok _ =>
      if env.p1 = false then
        failPath env init (stStep2 env init) (evE env init) [] else
      if env.p2 = false then
        failPath env init (stPokeT env init name) (evF env init name) [] else
      if env.s1 = false then
        failPath env init (stPoke2 env init name) (evG env init name) [] else
      if env.c3 = false then
        failPath env init (stCont env init name) (evH env init name) [] else
      if env.g3 = false then
        failPath env init (stCont env init name) (evH env init name) [] else
      Option.elim (printedOf env init name)
        ⟨Outcome.hung, stCont env init name, evH env init name, []⟩
        (fun printed =>
          if env.s2 = false then
            failPath env init (stCont env init name) (evH env init name) printed else
          if env.st4 = false then
            failPath env init (stStep4 env init name) (evI env init name) printed else
          if env.g4 = false then
            failPath env init (stStep4 env init name) (evI env init name) printed else
          if (stStep4 env init name).regs.rip = rip0 init then
            if env.s3 = false then
              failPath env init (stStep4 env init name) (evI env init name) printed else
            if env.st5 = false then
              failPath env init (stStep5 env init name) (evJ env init name) printed else
            if env.g5 = false then
              failPath env init (stStep5 env init name) (evJ env init name) printed else
            if env.s4 = false then
              failPath env init (stPoke4 env init name) (evJ env init name
                ++ (if env.p4 then [Event.poke (rip0 init) (oldw init)] else []))
                printed else
            if env.d1 = false then
              failPath env init (stFinal env init name) (succEvents env init name)
                printed else
            ⟨Outcome.ret 0, stFinal env init name, succEvents env init name, printed⟩
          else
            failPath env init (stStep4 env init name) (evI env init name) printed)
  else failPath env init (stStep2 env init) (evE env init) []

/-- Exit status of a process whose `main` returned `c` (low eight bits,
as the OS reports it). -/
def exitStatusI (c : Int) : Nat := (c % 256).toNat

/-- Exit status of a run outcome; `none` when the run never terminates. -/
def outcomeExit : Outcome → Option Nat
  | Outcome.ret c => some (exitStatusI c)
  | Outcome.exited c => some (c % 256)
  | Outcome.hung => none

/-- The argument handling of `main` (lines 442-492), after option
parsing: `pGiven`/`eGiven` say whether `-p`/`-e` were supplied, `p` is
the parsed pid, `engineResult` is what `getenv_process` returned. A
negative pid and missing arguments return 1 before any ptrace call. -/
def main_model (pGiven : Bool) (p : Int) (eGiven : Bool) (engineResult : Int) : Int :=
  if pGiven = true ∧ p < 0 then 1
  else if pGiven = false then 1
  else if eGiven = false then 1
  else engineResult

/-! ## Concrete fixtures used by witnesses and counterexamples

A target stopped at rip 4096 whose memory holds byte 7 everywhere except
a NUL-terminated string "BC" at address 70000, a kernel that grants every
request, an mmap that lands at 65536, and execution steps with the real
x86 semantics of the injected instructions. -/

def wRegs : Regs := ⟨1, 2, 3, 4, 5, 6, 7, 4096⟩

def wMem : Nat → Nat := fun a =>
  if a = 70000 then 66 else if a = 70001 then 67 else if a = 70002 then 0 else 7

def wInit : Target := ⟨wRegs, wMem⟩

/-- The mmap syscall step: rax gets the fresh page, rip advances past
`0f 05`. -/
def wEff1 : Target → Target := fun t =>
  ⟨{ t.regs with rax := 65536, rip := t.regs.rip + 2 }, t.mem⟩

/-- The `jmp %rax` step. -/
def wEff2 : Target → Target := fun t => ⟨{ t.regs with rip := t.regs.rax }, t.mem⟩

/-- The remote call running to the breakpoint, returning NULL (variable
absent). The trap leaves rip just past the `cc` byte at offset 5. -/
def wEff3 : Target → Target := fun t =>
  ⟨{ t.regs with rax := 0, rip := t.regs.rip + 6 }, t.mem⟩

/-- The remote call returning a pointer to the string at 70000. -/
def wEff3found : Target → Target := fun t =>
  ⟨{ t.regs with rax := 70000, rip := t.regs.rip + 6 }, t.mem⟩

/-- The jump-back step. -/
def wEff4 : Target → Target := fun t => ⟨{ t.regs with rip := t.regs.rax }, t.mem⟩

/-- The munmap syscall step. -/
def wEff5 : Target → Target := fun t =>
  ⟨{ t.regs with rax := 0, rip := t.regs.rip + 2 }, t.mem⟩

def wEnv : Env :=
  { attachOk := true, waitOk := true,
    g0 := true, g1 := true, g2 := true, g3 := true, g4 := true, g5 := true,
    p0 := true, p1 := true, p2 := true, p3 := true, p4 := true, pF := true,
    s0 := true, s1 := true, s2 := true, s3 := true, s4 := true,
    st1 := true, st2 := true, c3 := true, st4 := true, st5 := true, d1 := true,
    eff1 := wEff1, eff2 := wEff2, eff3 := wEff3, eff4 := wEff4, eff5 := wEff5,
    theirLibc := 500000, ourLibc := 400000, ourGetenv := 410000,
    j4 := 0, j5 := 0, j6 := 0, j7 := 0, scanFuel := 100 }

/-- Same kernel and target, but the remote getenv finds the variable. -/
def wEnvFound : Env := { wEnv with eff3 := wEff3found }

/-- The name argument: the single byte "A". -/
def wName : List Nat := [65]


/-- Reduction of `getenv_process` along the success path: when every
kernel request succeeds, the mmap does not fail, both rip checks pass,
the displacement fits, and the scan terminates, the run returns 0, ends
in `stFinal`, issues exactly `succEvents`, and prints `ps`. -/
theorem run_succ (env : Env) (init : Target) (name : List Nat) (ps : List Nat)
    (hat : env.attachOk = true) (hwa : env.waitOk = true)
    (hg0 : env.g0 = true) (hp0 : env.p0 = true) (hs0 : env.s0 = true)
    (hst1 : env.st1 = true) (hg1 : env.g1 = true)
    (hmm : mmOf env init ≠ 18446744073709551615)
    (hst2 : env.st2 = true) (hg2 : env.g2 = true)
    (hrip2 : (stStep2 env init).regs.rip = mmOf env init)
    (hcj : compute_jmp (mmOf env init) (theirGetenv env) =
      Except.ok (deltaOf env init))
    (hp1 : env.p1 = true) (hp2 : env.p2 = true) (hs1 : env.s1 = true)
    (hc3 : env.c3 = true) (hg3 : env.g3 = true)
    (hscan : printedOf env init name = some ps)
    (hs2 : env.s2 = true) (hst4 : env.st4 = true) (hg4 : env.g4 = true)
    (hrip4 : (stStep4 env init name).regs.rip = rip0 init)
    (hs3 : env.s3 = true) (hst5 : env.st5 = true) (hg5 : env.g5 = true)
    (hs4 : env.s4 = true) (hd1 : env.d1 = true) :
    getenv_process env init name =
      ⟨Outcome.ret 0, stFinal env init name, succEvents env init name, ps⟩ := by
  rw [getenv_process]
  rw [hat, hwa, hg0, hp0, hs0, hst1, hg1, hst2, hg2, hp1, hp2, hs1, hc3, hg3,
    hs2, hst4, hg4, hs3, hst5, hg5, hs4, hd1]
  rw [if_neg hmm, if_pos hrip2, hcj, hscan]
  simp only [Bool.true_eq_false, if_false, Option.elim_some, if_pos hrip4]

theorem trampoline_length (env : Env) (init : Target) (name : List Nat) :
    (trampoline env init name).length = blockOf name := by
  have hge : memsizeOf name ≤ blockOf name := blocksizeOf_ge (memsizeOf name)
  simp only [trampoline, List.length_append, List.length_cons, List.length_nil,
    enc32_length, List.length_replicate]
  unfold memsizeOf at hge ⊢
  omega

/-- Frame property of a completed run: the sixteen bytes at the baseline
rip in the final state equal the initial ones, provided the execution
steps did not write them (the target "spins in a known loop" and the
library call only reads), the trap after the remote call stopped right
past the breakpoint, and the scratch page does not overlap them. -/
theorem stFinal_mem_frame (env : Env) (init : Target) (name : List Nat)
    (hp3 : env.p3 = true) (hp4 : env.p4 = true)
    (hrip3 : (stCont env init name).regs.rip = mmOf env init + 6)
    (hm1 : ∀ x, rip0 init ≤ x → x < rip0 init + 16 →
      (stStep1 env init).mem x = (stRegs1 env init).mem x)
    (hm2 : ∀ x, rip0 init ≤ x → x < rip0 init + 16 →
      (stStep2 env init).mem x = (stStep1 env init).mem x)
    (hm3 : ∀ x, rip0 init ≤ x → x < rip0 init + 16 →
      (stCont env init name).mem x = (stRegs2 env init name).mem x)
    (hm4 : ∀ x, rip0 init ≤ x → x < rip0 init + 16 →
      (stStep4 env init name).mem x = (stPoke3 env init name).mem x)
    (hm5 : ∀ x, rip0 init ≤ x → x < rip0 init + 16 →
      (stStep5 env init name).mem x = (stRegs4 env init name).mem x)
    (hdisj : ∀ x, rip0 init ≤ x → x < rip0 init + 16 →
      x < mmOf env init ∨ mmOf env init + blockOf name + 14 ≤ x) :
    ∀ j, j < 16 →
      (stFinal env init name).mem (rip0 init + j) = init.mem (rip0 init + j) := by
  intro j hj
  have hx1 : rip0 init ≤ rip0 init + j := by omega
  have hx2 : rip0 init + j < rip0 init + 16 := by omega
  have efin : (stFinal env init name).mem (rip0 init + j) =
      (stPoke4 env init name).mem (rip0 init + j) := rfl
  have e5 : (stPoke4 env init name).mem (rip0 init + j) =
      writeBytes (stStep5 env init name).mem (rip0 init) (oldw init) (rip0 init + j) := by
    rw [stPoke4, if_pos hp4]
  rw [efin, e5]
  by_cases hj8 : j < 8
  · rw [writeBytes_getD _ _ _ _ (by rw [oldw, readBytes_length]; omega)]
    rw [oldw, readBytes_getD _ _ _ _ (by omega)]
  · rw [writeBytes_eq_of_ge _ _ _ _ (by rw [oldw, readBytes_length]; omega)]
    rw [hm5 _ hx1 hx2]
    have e4 : (stRegs4 env init name).mem (rip0 init + j) =
        (stStep4 env init name).mem (rip0 init + j) := rfl
    rw [e4, hm4 _ hx1 hx2]
    have hjrip : (jRegs env init name).rip = mmOf env init + 6 := hrip3
    have e3 : (stPoke3 env init name).mem (rip0 init + j) =
        writeBytes (stRegs3 env init name).mem (jRegs env init name).rip
          (jmpWord env) (rip0 init + j) := by
      rw [stPoke3, if_pos hp3]
    rw [e3]
    have hjlen : (jmpWord env).length = 8 := rfl
    have hstep3 : writeBytes (stRegs3 env init name).mem (jRegs env init name).rip
        (jmpWord env) (rip0 init + j) = (stRegs3 env init name).mem (rip0 init + j) := by
      rcases hdisj _ hx1 hx2 with hlt | hge
      · exact writeBytes_eq_of_lt _ _ _ _ (by rw [hjrip]; omega)
      · exact writeBytes_eq_of_ge _ _ _ _ (by rw [hjrip, hjlen]; omega)
    rw [hstep3]
    have e2b : (stRegs3 env init name).mem (rip0 init + j) =
        (stCont env init name).mem (rip0 init + j) := rfl
    rw [e2b, hm3 _ hx1 hx2]
    have e2c : (stRegs2 env init name).mem (rip0 init + j) =
        writeBytes (stPokeT env init name).mem (rip0 init) (newWord env)
          (rip0 init + j) := rfl
    rw [e2c, writeBytes_eq_of_ge _ _ _ _
      (by have : (newWord env).length = 8 := rfl; omega)]
    have e2e : (stPokeT env init name).mem (rip0 init + j) =
        writeBytes (stStep2 env init).mem (mmOf env init)
          (trampoline env init name) (rip0 init + j) := rfl
    rw [e2e]
    have hstepT : writeBytes (stStep2 env init).mem (mmOf env init)
        (trampoline env init name) (rip0 init + j) =
        (stStep2 env init).mem (rip0 init + j) := by
      rcases hdisj _ hx1 hx2 with hlt | hge
      · exact writeBytes_eq_of_lt _ _ _ _ hlt
      · exact writeBytes_eq_of_ge _ _ _ _ (by rw [trampoline_length]; omega)
    rw [hstepT, hm2 _ hx1 hx2, hm1 _ hx1 hx2]
    have e1 : (stRegs1 env init).mem (rip0 init + j) =
        writeBytes init.mem (rip0 init) (newWord env) (rip0 init + j) := rfl
    rw [e1, writeBytes_eq_of_ge _ _ _ _
      (by have : (newWord env).length = 8 := rfl; omega)]

/-- C1: after a successful lookup, the target's general-purpose register
file and the first sixteen bytes at its pre-injection instruction
pointer are bit-identical to their pre-attach values. The hypotheses
state that the session completes (every kernel request succeeds, the
remote mmap does not fail, the two rip checks pass, the displacement
fits, the scan terminates) and the frame conditions of the spec's
scenario: the target's own execution steps do not write the sixteen
bytes at the baseline rip, and the scratch page does not overlap them.
Only the eight bytes at the baseline rip are ever poked there; they are
captured into `oldw` (the C `old_word`) from the pristine memory and
poked back (line 414) before `PTRACE_SETREGS(oldregs)` and detach. -/
theorem getenv_restores_target (env : Env) (init : Target) (name : List Nat)
    (hat : env.attachOk = true) (hwa : env.waitOk = true)
    (hg0 : env.g0 = true) (hp0 : env.p0 = true) (hs0 : env.s0 = true)
    (hst1 : env.st1 = true) (hg1 : env.g1 = true)
    (hmm : mmOf env init ≠ 18446744073709551615)
    (hst2 : env.st2 = true) (hg2 : env.g2 = true)
    (hrip2 : (stStep2 env init).regs.rip = mmOf env init)
    (hcj : compute_jmp (mmOf env init) (theirGetenv env) =
      Except.ok (deltaOf env init))
    (hp1 : env.p1 = true) (hp2 : env.p2 = true) (hs1 : env.s1 = true)
    (hc3 : env.c3 = true) (hg3 : env.g3 = true)
    (hscan : printedOf env init name ≠ none)
    (hs2 : env.s2 = true) (hst4 : env.st4 = true) (hg4 : env.g4 = true)
    (hrip4 : (stStep4 env init name).regs.rip = rip0 init)
    (hs3 : env.s3 = true) (hst5 : env.st5 = true) (hg5 : env.g5 = true)
    (hs4 : env.s4 = true) (hd1 : env.d1 = true)
    (hp3 : env.p3 = true) (hp4 : env.p4 = true)
    (hrip3 : (stCont env init name).regs.rip = mmOf env init + 6)
    (hm1 : ∀ x, rip0 init ≤ x → x < rip0 init + 16 →
      (stStep1 env init).mem x = (stRegs1 env init).mem x)
    (hm2 : ∀ x, rip0 init ≤ x → x < rip0 init + 16 →
      (stStep2 env init).mem x = (stStep1 env init).mem x)
    (hm3 : ∀ x, rip0 init ≤ x → x < rip0 init + 16 →
      (stCont env init name).mem x = (stRegs2 env init name).mem x)
    (hm4 : ∀ x, rip0 init ≤ x → x < rip0 init + 16 →
      (stStep4 env init name).mem x = (stPoke3 env init name).mem x)
    (hm5 : ∀ x, rip0 init ≤ x → x < rip0 init + 16 →
      (stStep5 env init name).mem x = (stRegs4 env init name).mem x)
    (hdisj : ∀ x, rip0 init ≤ x → x < rip0 init + 16 →
      x < mmOf env init ∨ mmOf env init + blockOf name + 14 ≤ x) :
    (getenv_process env init name).outcome = Outcome.ret 0 ∧
    (getenv_process env init name).final.regs = init.regs ∧
    ∀ j, j < 16 → (getenv_process env init name).final.mem (rip0 init + j) =
      init.mem (rip0 init + j) := by
  obtain ⟨ps, hps⟩ := Option.ne_none_iff_exists'.mp hscan
  rw [run_succ env init name ps hat hwa hg0 hp0 hs0 hst1 hg1 hmm hst2 hg2 hrip2
    hcj hp1 hp2 hs1 hc3 hg3 hps hs2 hst4 hg4 hrip4 hs3 hst5 hg5 hs4 hd1]
  exact ⟨rfl, rfl,
    stFinal_mem_frame env init name hp3 hp4 hrip3 hm1 hm2 hm3 hm4 hm5 hdisj⟩

/-- C1 witness: a fully concrete successful session against the fixture
target; registers and the sixteen baseline bytes are restored. -/
theorem getenv_restores_target_witness :
    (getenv_process wEnv wInit wName).outcome = Outcome.ret 0 ∧
    (getenv_process wEnv wInit wName).final.regs = wInit.regs ∧
    ∀ j, j < 16 → (getenv_process wEnv wInit wName).final.mem (rip0 wInit + j) =
      wInit.mem (rip0 wInit + j) :=
  getenv_restores_target wEnv wInit wName rfl rfl rfl rfl rfl rfl rfl
    (by decide) rfl rfl rfl rfl rfl rfl rfl rfl rfl (by decide) rfl rfl rfl rfl
    rfl rfl rfl rfl rfl rfl rfl rfl
    (fun x h1 h2 => rfl) (fun x h1 h2 => rfl) (fun x h1 h2 => rfl)
    (fun x h1 h2 => rfl) (fun x h1 h2 => rfl)
    (fun x h1 h2 => Or.inl (by
      have hr : rip0 wInit = 4096 := rfl
      have hm : mmOf wEnv wInit = 65536 := rfl
      omega))

theorem printedOf_of_rax0 (env : Env) (init : Target) (name : List Nat)
    (h : raxRes env init name = 0) : printedOf env init name = some [] := by
  rw [printedOf, if_pos h]

/-- C5: when the remote getenv returns NULL the run is a success, not an
error: nothing is printed, the full restoration sequence still runs
(its ptrace trace is exactly `succEvents`, ending in the detach), the
function returns 0 and the process exit status is 0. -/
theorem absent_variable_is_success (env : Env) (init : Target) (name : List Nat)
    (hat : env.attachOk = true) (hwa : env.waitOk = true)
    (hg0 : env.g0 = true) (hp0 : env.p0 = true) (hs0 : env.s0 = true)
    (hst1 : env.st1 = true) (hg1 : env.g1 = true)
    (hmm : mmOf env init ≠ 18446744073709551615)
    (hst2 : env.st2 = true) (hg2 : env.g2 = true)
    (hrip2 : (stStep2 env init).regs.rip = mmOf env init)
    (hcj : compute_jmp (mmOf env init) (theirGetenv env) =
      Except.ok (deltaOf env init))
    (hp1 : env.p1 = true) (hp2 : env.p2 = true) (hs1 : env.s1 = true)
    (hc3 : env.c3 = true) (hg3 : env.g3 = true)
    (hrax : raxRes env init name = 0)
    (hs2 : env.s2 = true) (hst4 : env.st4 = true) (hg4 : env.g4 = true)
    (hrip4 : (stStep4 env init name).regs.rip = rip0 init)
    (hs3 : env.s3 = true) (hst5 : env.st5 = true) (hg5 : env.g5 = true)
    (hs4 : env.s4 = true) (hd1 : env.d1 = true) :
    (getenv_process env init name).output = [] ∧
    (getenv_process env init name).outcome = Outcome.ret 0 ∧
    (getenv_process env init name).events = succEvents env init name ∧
    Event.detach ∈ (getenv_process env init name).events ∧
    outcomeExit (getenv_process env init name).outcome = some 0 := by
  rw [run_succ env init name [] hat hwa hg0 hp0 hs0 hst1 hg1 hmm hst2 hg2 hrip2
    hcj hp1 hp2 hs1 hc3 hg3 (printedOf_of_rax0 env init name hrax) hs2 hst4 hg4
    hrip4 hs3 hst5 hg5 hs4 hd1]
  refine ⟨rfl, rfl, rfl, ?_, rfl⟩
  simp [succEvents]

/-- C5 witness: the fixture session whose remote getenv returns NULL. -/
theorem absent_variable_is_success_witness :
    (getenv_process wEnv wInit wName).output = [] ∧
    (getenv_process wEnv wInit wName).outcome = Outcome.ret 0 ∧
    (getenv_process wEnv wInit wName).events = succEvents wEnv wInit wName ∧
    Event.detach ∈ (getenv_process wEnv wInit wName).events ∧
    outcomeExit (getenv_process wEnv wInit wName).outcome = some 0 :=
  absent_variable_is_success wEnv wInit wName rfl rfl rfl rfl rfl rfl rfl
    (by decide) rfl rfl rfl rfl rfl rfl rfl rfl rfl rfl rfl rfl rfl rfl rfl
    rfl rfl rfl rfl

theorem getD_mem_of_lt (l : List Nat) (i : Nat) (h : i < l.length) :
    l.getD i 0 ∈ l := by
  induction l generalizing i with
  | nil => simp at h
  | cons a t ih =>
    match i with
    | 0 => simp
    | i + 1 =>
      simp only [List.getD_cons_succ]
      exact List.mem_cons_of_mem _ (ih i (by simpa using h))

/-- C2: for a variable whose value `v` (bytes all nonzero) sits
NUL-terminated at the address the remote getenv returns, a completed run
prints exactly `v` followed by one newline: the word-at-a-time scan stops
at the first word containing a zero byte, the copied block includes the
terminator, and `printf("%s\n", ...)` trims at it, so no byte of `v` is
truncated or altered. -/
theorem remote_lookup_prints_value (env : Env) (init : Target) (name v : List Nat)
    (hat : env.attachOk = true) (hwa : env.waitOk = true)
    (hg0 : env.g0 = true) (hp0 : env.p0 = true) (hs0 : env.s0 = true)
    (hst1 : env.st1 = true) (hg1 : env.g1 = true)
    (hmm : mmOf env init ≠ 18446744073709551615)
    (hst2 : env.st2 = true) (hg2 : env.g2 = true)
    (hrip2 : (stStep2 env init).regs.rip = mmOf env init)
    (hcj : compute_jmp (mmOf env init) (theirGetenv env) =
      Except.ok (deltaOf env init))
    (hp1 : env.p1 = true) (hp2 : env.p2 = true) (hs1 : env.s1 = true)
    (hc3 : env.c3 = true) (hg3 : env.g3 = true)
    (hA : raxRes env init name ≠ 0)
    (henc : ∀ i, i < v.length →
      (stCont env init name).mem (raxRes env init name + i) % 256 = v.getD i 0)
    (h0 : ∀ b, b ∈ v → b ≠ 0)
    (hterm : (stCont env init name).mem (raxRes env init name + v.length) % 256 = 0)
    (hfuel : v.length / 4 < env.scanFuel)
    (hs2 : env.s2 = true) (hst4 : env.st4 = true) (hg4 : env.g4 = true)
    (hrip4 : (stStep4 env init name).regs.rip = rip0 init)
    (hs3 : env.s3 = true) (hst5 : env.st5 = true) (hg5 : env.g5 = true)
    (hs4 : env.s4 = true) (hd1 : env.d1 = true) :
    (getenv_process env init name).output = v ++ [10] ∧
    (getenv_process env init name).outcome = Outcome.ret 0 := by
  have hnz : ∀ i, i < v.length →
      (stCont env init name).mem (raxRes env init name + i) % 256 ≠ 0 := by
    intro i hi
    rw [henc i hi]
    exact h0 _ (getD_mem_of_lt v i hi)
  have hscanv := scanWords_zero_at (stCont env init name).mem v.length
    (raxRes env init name) env.scanFuel hnz hterm hfuel
  have hcs := cString_readBytesMod (stCont env init name).mem v
    (raxRes env init name) (4 * (v.length / 4 + 1)) (by omega) henc h0 hterm
  have hps : printedOf env init name = some (v ++ [10]) := by
    rw [printedOf, if_neg hA, readCString, hscanv]
    simp only [Option.map_some']
    rw [copyWords, hcs]
  rw [run_succ env init name (v ++ [10]) hat hwa hg0 hp0 hs0 hst1 hg1 hmm hst2
    hg2 hrip2 hcj hp1 hp2 hs1 hc3 hg3 hps hs2 hst4 hg4 hrip4 hs3 hst5 hg5 hs4 hd1]
  exact ⟨rfl, rfl⟩

/-- C2 witness: the fixture session whose remote getenv returns a pointer
to the two-byte string "BC"; the tool prints `BC` and a newline. -/
theorem remote_lookup_prints_value_witness :
    (getenv_process wEnvFound wInit wName).output = [66, 67, 10] ∧
    (getenv_process wEnvFound wInit wName).outcome = Outcome.ret 0 :=
  remote_lookup_prints_value wEnvFound wInit wName [66, 67] rfl rfl rfl rfl rfl
    rfl rfl (by decide) rfl rfl rfl rfl rfl rfl rfl rfl rfl (by decide)
    (by decide) (by decide) (by decide) (by decide) rfl rfl rfl rfl rfl rfl rfl
    rfl rfl

/-- A libc whose image lies 2^40 bytes away: the rel32 displacement to
the remote getenv cannot fit in a signed 32-bit integer. -/
def envFar : Env := { wEnv with theirLibc := 1099511627776 }

/-- The kernel refuses the PTRACE_GETREGS issued right after the mmap
single-step (line 204). -/
def envG1 : Env := { wEnv with g1 := false }

/-- The single-step at line 220 fails, an ordinary `goto fail` branch,
for contrast with the two buggy paths. -/
def envSt2 : Env := { wEnv with st2 := false }

/-- C3 (code bug): when the displacement overflows, `compute_jmp` calls
`exit(1)` directly (lines 131-135). At that point the target is still
attached and the injected `syscall`/`jmp` word (first byte `0f` = 15) is
still at its instruction pointer: the run ends as `exited 1` with no
PTRACE_DETACH issued and the baseline text not restored — contradicting
the spec's requirement that on this failure the saved bytes are written
back and a detach is attempted. An ordinary `goto fail` branch (a failed
single-step) by contrast restores the byte 7 and detaches. -/
theorem compute_jmp_overflow_exits_without_restore :
    compute_jmp (mmOf envFar wInit) (theirGetenv envFar) = Except.error () ∧
    (getenv_process envFar wInit wName).outcome = Outcome.exited 1 ∧
    Event.detach ∉ (getenv_process envFar wInit wName).events ∧
    (getenv_process envFar wInit wName).final.mem (rip0 wInit) = 15 ∧
    wInit.mem (rip0 wInit) = 7 ∧
    Event.detach ∈ (getenv_process envSt2 wInit wName).events ∧
    (getenv_process envSt2 wInit wName).final.mem (rip0 wInit) = 7 := by
  refine ⟨rfl, rfl, by decide, rfl, rfl, by decide, rfl⟩

/-- C4 (code bug): if the PTRACE_GETREGS immediately after the mmap
single-step fails, `getenv_process` does `return -1` (lines 204-207)
instead of `goto fail`: no saved-bytes write-back, no PTRACE_DETACH —
the injected word (first byte 15) is left at the target's instruction
pointer. Every `goto fail` branch (here: the failed single-step at line
220) does restore and detach. -/
theorem getregs_failure_skips_restore :
    (getenv_process envG1 wInit wName).outcome = Outcome.ret (-1) ∧
    Event.detach ∉ (getenv_process envG1 wInit wName).events ∧
    (getenv_process envG1 wInit wName).final.mem (rip0 wInit) = 15 ∧
    wInit.mem (rip0 wInit) = 7 ∧
    Event.detach ∈ (getenv_process envSt2 wInit wName).events ∧
    (getenv_process envSt2 wInit wName).final.mem (rip0 wInit) = 7 ∧
    Event.poke (rip0 wInit) (oldw wInit) ∈ (getenv_process envSt2 wInit wName).events := by
  refine ⟨rfl, by decide, rfl, rfl, by decide, rfl, by decide⟩

/-- The kernel refuses PTRACE_ATTACH. -/
def envAttachFail : Env := { wEnv with attachOk := false }

/-- C6 counterexample: on an attach failure `getenv_process` returns -1,
so `main` returns -1 and the process exit status is 255, not the 1 the
claim states for every engine failure. -/
theorem exit_code_attach_failure_not_one :
    (getenv_process envAttachFail wInit wName).outcome = Outcome.ret (-1) ∧
    outcomeExit (getenv_process envAttachFail wInit wName).outcome = some 255 ∧
    outcomeExit (getenv_process envAttachFail wInit wName).outcome ≠ some 1 := by
  refine ⟨rfl, rfl, by decide⟩

set_option maxHeartbeats 1600000 in
/-- Outcome classification helper: every run of `getenv_process` ends in
one of exactly five ways, and the unusual ones only on their designated
paths: `ret (-1)` only when one of the four direct `return -1` branches
was taken (attach, waitpid, the first GETREGS, or the GETREGS right
after the mmap single-step), `exited 1` only when `compute_jmp`
overflowed, `hung` only when the scan loop found no terminating word.
Every other exit — every `goto fail` branch — returns 1, and 0 is
returned otherwise. -/
theorem getenv_process_outcome_cases (env : Env) (init : Target)
    (name : List Nat) :
    (getenv_process env init name).outcome = Outcome.ret 0 ∨
    (getenv_process env init name).outcome = Outcome.ret 1 ∨
    ((getenv_process env init name).outcome = Outcome.ret (-1) ∧
      (env.attachOk = false ∨ env.waitOk = false ∨ env.g0 = false ∨
        env.g1 = false)) ∨
    ((getenv_process env init name).outcome = Outcome.exited 1 ∧
      compute_jmp (mmOf env init) (theirGetenv env) = Except.error ()) ∨
    ((getenv_process env init name).outcome = Outcome.hung ∧
      printedOf env init name = none) := by
  rw [getenv_process]
  by_cases h1 : env.attachOk = false
  case pos => rw [if_pos h1]; exact Or.inr (Or.inr (Or.inl ⟨rfl, Or.inl h1⟩))
  rw [if_neg h1]
  by_cases h2 : env.waitOk = false
  case pos =>
    rw [if_pos h2]; exact Or.inr (Or.inr (Or.inl ⟨rfl, Or.inr (Or.inl h2)⟩))
  rw [if_neg h2]
  by_cases h3 : env.g0 = false
  case pos =>
    rw [if_pos h3]
    exact Or.inr (Or.inr (Or.inl ⟨rfl, Or.inr (Or.inr (Or.inl h3))⟩))
  rw [if_neg h3]
  by_cases h4 : env.p0 = false
  case pos => rw [if_pos h4]; exact Or.inr (Or.inl rfl)
  rw [if_neg h4]
  by_cases h5 : env.s0 = false
  case pos => rw [if_pos h5]; exact Or.inr (Or.inl rfl)
  rw [if_neg h5]
  by_cases h6 : env.st1 = false
  case pos => rw [if_pos h6]; exact Or.inr (Or.inl rfl)
  rw [if_neg h6]
  by_cases h7 : env.g1 = false
  case pos =>
    rw [if_pos h7]
    exact Or.inr (Or.inr (Or.inl ⟨rfl, Or.inr (Or.inr (Or.inr h7))⟩))
  rw [if_neg h7]
  by_cases h8 : mmOf env init = 18446744073709551615
  case pos => rw [if_pos h8]; exact Or.inr (Or.inl rfl)
  rw [if_neg h8]
  by_cases h9 : env.st2 = false
  case pos => rw [if_pos h9]; exact Or.inr (Or.inl rfl)
  rw [if_neg h9]
  by_cases h10 : env.g2 = false
  case pos => rw [if_pos h10]; exact Or.inr (Or.inl rfl)
  rw [if_neg h10]
  by_cases h11 : (stStep2 env init).regs.rip = mmOf env init
  case neg => rw [if_neg h11]; exact Or.inr (Or.inl rfl)
  rw [if_pos h11]
  rcases hcj : compute_jmp (mmOf env init) (theirGetenv env) with e | d
  · exact Or.inr (Or.inr (Or.inr (Or.inl ⟨rfl, rfl⟩)))
  by_cases h12 : env.p1 = false
  case pos => rw [if_pos h12]; exact Or.inr (Or.inl rfl)
  rw [if_neg h12]
  by_cases h13 : env.p2 = false
  case pos => rw [if_pos h13]; exact Or.inr (Or.inl rfl)
  rw [if_neg h13]
  by_cases h14 : env.s1 = false
  case pos => rw [if_pos h14]; exact Or.inr (Or.inl rfl)
  rw [if_neg h14]
  by_cases h15 : env.c3 = false
  case pos => rw [if_pos h15]; exact Or.inr (Or.inl rfl)
  rw [if_neg h15]
  by_cases h16 : env.g3 = false
  case pos => rw [if_pos h16]; exact Or.inr (Or.inl rfl)
  rw [if_neg h16]
  rcases hpo : printedOf env init name with _ | ps
  · exact Or.inr (Or.inr (Or.inr (Or.inr ⟨rfl, rfl⟩)))
  simp only [Option.elim_some]
  by_cases h17 : env.s2 = false
  case pos => rw [if_pos h17]; exact Or.inr (Or.inl rfl)
  rw [if_neg h17]
  by_cases h18 : env.st4 = false
  case pos => rw [if_pos h18]; exact Or.inr (Or.inl rfl)
  rw [if_neg h18]
  by_cases h19 : env.g4 = false
  case pos => rw [if_pos h19]; exact Or.inr (Or.inl rfl)
  rw [if_neg h19]
  by_cases h20 : (stStep4 env init name).regs.rip = rip0 init
  case neg => rw [if_neg h20]; exact Or.inr (Or.inl rfl)
  rw [if_pos h20]
  by_cases h21 : env.s3 = false
  case pos => rw [if_pos h21]; exact Or.inr (Or.inl rfl)
  rw [if_neg h21]
  by_cases h22 : env.st5 = false
  case pos => rw [if_pos h22]; exact Or.inr (Or.inl rfl)
  rw [if_neg h22]
  by_cases h23 : env.g5 = false
  case pos => rw [if_pos h23]; exact Or.inr (Or.inl rfl)
  rw [if_neg h23]
  by_cases h24 : env.s4 = false
  case pos => rw [if_pos h24]; exact Or.inr (Or.inl rfl)
  rw [if_neg h24]
  by_cases h25 : env.d1 = false
  case pos => rw [if_pos h25]; exact Or.inr (Or.inl rfl)
  rw [if_neg h25]
  exact Or.inl rfl

/-- C6 (amended): exit status 0 on success and 1 on argument errors;
engine failures exit nonzero but not uniformly 1. The four direct
`return -1` paths — attach failure (line 144), waitpid failure (line
150), the initial register read (line 157), and the register read
immediately after the mmap single-step (line 206) — make `main` return
-1, which the OS reports as exit status 255; a displacement overflow
exits with status 1 via `exit(1)` inside `compute_jmp`; every other
engine failure reaches the `fail` label and returns 1 (and a
non-terminating scan never exits). So a run's status is 0, 1 or 255 —
or nothing at all — and 255 arises only on those four paths. -/
theorem exit_codes_amended :
    (∀ env init name, env.attachOk = false →
      getenv_process env init name = ⟨Outcome.ret (-1), init, [], []⟩) ∧
    (∀ env init name, env.attachOk = true → env.waitOk = false →
      (getenv_process env init name).outcome = Outcome.ret (-1)) ∧
    (∀ env init name, env.attachOk = true → env.waitOk = true → env.g0 = false →
      (getenv_process env init name).outcome = Outcome.ret (-1)) ∧
    (∀ env init name, env.attachOk = true → env.waitOk = true → env.g0 = true →
      env.p0 = true → env.s0 = true → env.st1 = true → env.g1 = false →
      (getenv_process env init name).outcome = Outcome.ret (-1)) ∧
    (∀ env init name, env.attachOk = true → env.waitOk = true → env.g0 = true →
      env.p0 = true → env.s0 = true → env.st1 = true → env.g1 = true →
      mmOf env init ≠ 18446744073709551615 → env.st2 = true → env.g2 = true →
      (stStep2 env init).regs.rip = mmOf env init →
      compute_jmp (mmOf env init) (theirGetenv env) = Except.error () →
      (getenv_process env init name).outcome = Outcome.exited 1) ∧
    (∀ env init name, env.attachOk = true → env.waitOk = true → env.g0 = true →
      env.p0 = true → env.s0 = false →
      (getenv_process env init name).outcome = Outcome.ret 1) ∧
    (∀ env init name,
      (getenv_process env init name).outcome = Outcome.ret 0 ∨
      (getenv_process env init name).outcome = Outcome.ret 1 ∨
      ((getenv_process env init name).outcome = Outcome.ret (-1) ∧
        (env.attachOk = false ∨ env.waitOk = false ∨ env.g0 = false ∨
          env.g1 = false)) ∨
      ((getenv_process env init name).outcome = Outcome.exited 1 ∧
        compute_jmp (mmOf env init) (theirGetenv env) = Except.error ()) ∨
      ((getenv_process env init name).outcome = Outcome.hung ∧
        printedOf env init name = none)) ∧
    outcomeExit (Outcome.ret 0) = some 0 ∧
    outcomeExit (Outcome.ret 1) = some 1 ∧
    outcomeExit (Outcome.ret (-1)) = some 255 ∧
    outcomeExit (Outcome.exited 1) = some 1 ∧
    outcomeExit Outcome.hung = none ∧
    (∀ p e r, main_model false p e r = 1) ∧
    (∀ p e r, p < 0 → main_model true p e r = 1) ∧
    (∀ p r, 0 ≤ p → main_model true p false r = 1) ∧
    (∀ p r, 0 ≤ p → main_model true p true r = r) := by
  refine ⟨?_, ?_, ?_, ?_, ?_, ?_, getenv_process_outcome_cases,
    by decide, by decide, by decide, by decide, by decide, ?_, ?_, ?_, ?_⟩
  · intro env init name h
    rw [getenv_process, if_pos h]
  · intro env init name h1 h2
    rw [getenv_process, if_neg (by simp [h1]), if_pos h2]
  · intro env init name h1 h2 h3
    rw [getenv_process, if_neg (by simp [h1]), if_neg (by simp [h2]), if_pos h3]
  · intro env init name h1 h2 h3 h4 h5 h6 h7
    rw [getenv_process, if_neg (by simp [h1]), if_neg (by simp [h2]),
      if_neg (by simp [h3]), if_neg (by simp [h4]), if_neg (by simp [h5]),
      if_neg (by simp [h6]), if_pos h7]
  · intro env init name h1 h2 h3 h4 h5 h6 h7 hmm h8 h9 hrip2 hcj
    rw [getenv_process]
    rw [h1, h2, h3, h4, h5, h6, h7, h8, h9]
    rw [if_neg hmm, if_pos hrip2, hcj]
    simp only [Bool.true_eq_false, if_false]
  · intro env init name h1 h2 h3 h4 h5
    rw [getenv_process, if_neg (by simp [h1]), if_neg (by simp [h2]),
      if_neg (by simp [h3]), if_neg (by simp [h4]), if_pos h5]
    rfl
  · intro p e r
    rw [main_model, if_neg (by simp), if_pos rfl]
  · intro p e r h
    rw [main_model, if_pos ⟨rfl, h⟩]
  · intro p r h
    rw [main_model, if_neg (by simp; omega), if_neg (by simp), if_pos rfl]
  · intro p r h
    rw [main_model, if_neg (by simp; omega), if_neg (by simp), if_neg (by simp)]

/-- C6 witness: the four concrete paths the amendment names — attach
failure (255), the post-mmap register-read failure (255), a displacement
overflow (exit 1) — and a successful CLI invocation propagating the
engine's 0. -/
theorem exit_codes_amended_witness :
    (getenv_process envAttachFail wInit wName =
      ⟨Outcome.ret (-1), wInit, [], []⟩) ∧
    (getenv_process envG1 wInit wName).outcome = Outcome.ret (-1) ∧
    (getenv_process envFar wInit wName).outcome = Outcome.exited 1 ∧
    outcomeExit (Outcome.ret (-1)) = some 255 ∧
    main_model true 5 true 0 = 0 := by
  obtain ⟨h1, h2, h3, h4, h5, h6, h7, h8, h9, h10, h11, h12, h13, h14, h15,
    h16⟩ := exit_codes_amended
  exact ⟨h1 envAttachFail wInit wName rfl,
    h4 envG1 wInit wName rfl rfl rfl rfl rfl rfl rfl,
    h5 envFar wInit wName rfl rfl rfl rfl rfl rfl rfl (by decide) rfl rfl rfl
      rfl,
    h10, h16 5 0 (by omega)⟩

/-- A maps line for `/liba.so` and the four-byte needle `"/lib"`. -/
def libaLine : List Nat := asBytes "400000-401000 r-xp 00000000 08:01 123 /liba.so\n"

def shortNeedle : List Nat := [47, 108, 105, 98]

/-- C7 counterexample: with a needle other than `"/libc"` the code checks
the byte at offset `strlen(libc_string)` = 5 from the match, not the byte
immediately after the needle. For needle `"/lib"` on a `/liba.so` line the
byte right after the match is the lowercase `a` (97), yet `find_library`
accepts the line and returns 0x400000; the inspector described by the
claim (`specFindLibrary`) rejects it. -/
theorem find_library_accepts_lowercase_after_short_needle :
    find_library [libaLine] shortNeedle = some 4194304 ∧
    specFindLibrary [libaLine] shortNeedle = none ∧
    (strstrIdx libaLine shortNeedle).map
      (fun p => byteAt libaLine (p + shortNeedle.length)) = some 97 := by
  refine ⟨by decide, by decide, by decide⟩

/-- C7 (amended): the byte the code examines is at offset
`strlen("/libc")` = 5 from the start of the match; for needles of length
5 — in particular the needle `"/libc"` the program actually passes — this
is exactly the byte after the match, and `find_library` agrees with the
spec's description everywhere. -/
theorem find_library_matches_spec_for_libc_needle (lines : List (List Nat))
    (needle : List Nat) (h : needle.length = libcString.length) :
    find_library lines needle = specFindLibrary lines needle := by
  induction lines with
  | nil => rfl
  | cons line rest ih =>
    cases hs : strstrIdx line needle with
    | none =>
      simp only [find_library, specFindLibrary, hs]
      exact ih
    | some pos =>
      simp only [find_library, specFindLibrary, hs, h]
      by_cases hc : ((strstrIdx line textArea).isSome
          && (decide (byteAt line (pos + libcString.length) < 97)
              || decide (122 < byteAt line (pos + libcString.length)))) = true
      · rw [if_pos hc, if_pos hc]
      · rw [if_neg hc, if_neg hc]
        exact ih

/-- A `/libcoolthing.so` line (rejected: lowercase `o` after the `/libc`
match) followed by a genuine libc line at 0x20000. -/
def coolLine : List Nat := asBytes "10000-11000 r-xp 00000000 08:01 12 /libcoolthing.so\n"

def libcLine : List Nat := asBytes "20000-21000 r-xp 00000000 08:01 99 /libc-2.31.so\n"

/-- C7 witness: with the real needle `"/libc"` the code and the spec
description agree, skipping `/libcoolthing.so` and returning the libc
line's start address 0x20000. -/
theorem find_library_matches_spec_for_libc_needle_witness :
    find_library [coolLine, libcLine] libcString =
      specFindLibrary [coolLine, libcLine] libcString ∧
    find_library [coolLine, libcLine] libcString = some 131072 :=
  ⟨find_library_matches_spec_for_libc_needle [coolLine, libcLine] libcString rfl,
   by decide⟩

/-- C8 counterexample: on a fully successful run the two-byte `jmp *rax`
is poked at the post-trap instruction pointer 65542 (= scratch page
65536 + 6), not at the baseline rip 4096; no `jmp *rax` word is ever
poked at the baseline rip. -/
theorem jmp_rax_not_written_at_baseline :
    Event.poke ((jRegs wEnv wInit wName).rip) (jmpWord wEnv) ∈
      (getenv_process wEnv wInit wName).events ∧
    (jRegs wEnv wInit wName).rip = 65542 ∧
    rip0 wInit = 4096 ∧
    Event.poke (rip0 wInit) (jmpWord wEnv) ∉
      (getenv_process wEnv wInit wName).events := by
  refine ⟨by decide, rfl, rfl, by decide⟩

/-- C8 (amended): during restoration the engine sets the working rax to
the baseline rip and writes the `jmp *rax` word at the **current**
instruction pointer — `newregs.rip`, i.e. the scratch page address + 6,
one past the breakpoint, which is distinct from the baseline rip — then
single-steps; the run succeeds when the step lands at the baseline rip
(first part) and takes the failure path (`return 1`) when it does not
(second part). -/
theorem restore_jump_written_in_scratch :
    (∀ (env : Env) (init : Target) (name ps : List Nat),
      env.attachOk = true → env.waitOk = true → env.g0 = true → env.p0 = true →
      env.s0 = true → env.st1 = true → env.g1 = true →
      mmOf env init ≠ 18446744073709551615 →
      env.st2 = true → env.g2 = true →
      (stStep2 env init).regs.rip = mmOf env init →
      compute_jmp (mmOf env init) (theirGetenv env) =
        Except.ok (deltaOf env init) →
      env.p1 = true → env.p2 = true → env.s1 = true → env.c3 = true →
      env.g3 = true → printedOf env init name = some ps →
      env.s2 = true → env.st4 = true → env.g4 = true →
      (stStep4 env init name).regs.rip = rip0 init →
      env.s3 = true → env.st5 = true → env.g5 = true → env.s4 = true →
      env.d1 = true → env.p3 = true →
      (stCont env init name).regs.rip = mmOf env init + 6 →
      (∀ x, rip0 init ≤ x → x < rip0 init + 16 →
        x < mmOf env init ∨ mmOf env init + blockOf name + 14 ≤ x) →
      (jRegs env init name).rax = rip0 init ∧
      (jRegs env init name).rip = mmOf env init + 6 ∧
      (jRegs env init name).rip ≠ rip0 init ∧
      Event.poke ((jRegs env init name).rip) (jmpWord env) ∈
        (getenv_process env init name).events ∧
      (getenv_process env init name).outcome = Outcome.ret 0) ∧
    (∀ (env : Env) (init : Target) (name ps : List Nat),
      env.attachOk = true → env.waitOk = true → env.g0 = true → env.p0 = true →
      env.s0 = true → env.st1 = true → env.g1 = true →
      mmOf env init ≠ 18446744073709551615 →
      env.st2 = true → env.g2 = true →
      (stStep2 env init).regs.rip = mmOf env init →
      compute_jmp (mmOf env init) (theirGetenv env) =
        Except.ok (deltaOf env init) →
      env.p1 = true → env.p2 = true → env.s1 = true → env.c3 = true →
      env.g3 = true → printedOf env init name = some ps →
      env.s2 = true → env.st4 = true → env.g4 = true →
      (stStep4 env init name).regs.rip ≠ rip0 init →
      (getenv_process env init name).outcome = Outcome.ret 1) := by
  constructor
  · intro env init name ps hat hwa hg0 hp0 hs0 hst1 hg1 hmm hst2 hg2 hrip2 hcj
      hp1 hp2 hs1 hc3 hg3 hscan hs2 hst4 hg4 hrip4 hs3 hst5 hg5 hs4 hd1 hp3
      hrip3 hdisj
    have hjrip : (jRegs env init name).rip = mmOf env init + 6 := hrip3
    have hne : (jRegs env init name).rip ≠ rip0 init := by
      rcases hdisj (rip0 init) (by omega) (by omega) with hlt | hge
      · rw [hjrip]; omega
      · rw [hjrip]; omega
    rw [run_succ env init name ps hat hwa hg0 hp0 hs0 hst1 hg1 hmm hst2 hg2
      hrip2 hcj hp1 hp2 hs1 hc3 hg3 hscan hs2 hst4 hg4 hrip4 hs3 hst5 hg5 hs4
      hd1]
    refine ⟨rfl, hjrip, hne, ?_, rfl⟩
    simp [succEvents, evK, evJ, evI, hp3]
  · intro env init name ps hat hwa hg0 hp0 hs0 hst1 hg1 hmm hst2 hg2 hrip2 hcj
      hp1 hp2 hs1 hc3 hg3 hscan hs2 hst4 hg4 hrip4ne
    rw [getenv_process]
    rw [hat, hwa, hg0, hp0, hs0, hst1, hg1, hst2, hg2, hp1, hp2, hs1, hc3, hg3,
      hs2, hst4, hg4]
    rw [if_neg hmm, if_pos hrip2, hcj, hscan]
    simp only [Bool.true_eq_false, if_false, Option.elim_some, if_neg hrip4ne]
    rfl

/-- A target whose jump-back step lands at the wrong address. -/
def envBadJump : Env :=
  { wEnv with eff4 := fun t => ⟨{ t.regs with rip := 12345 }, t.mem⟩ }

/-- C8 witness: the fixture run writes the `jmp *rax` word at 65542 in
the scratch page and succeeds; with a jump-back landing at 12345 the
engine takes the failure path and returns 1. -/
theorem restore_jump_written_in_scratch_witness :
    ((jRegs wEnv wInit wName).rax = rip0 wInit ∧
     (jRegs wEnv wInit wName).rip = mmOf wEnv wInit + 6 ∧
     (jRegs wEnv wInit wName).rip ≠ rip0 wInit ∧
     Event.poke ((jRegs wEnv wInit wName).rip) (jmpWord wEnv) ∈
       (getenv_process wEnv wInit wName).events ∧
     (getenv_process wEnv wInit wName).outcome = Outcome.ret 0) ∧
    (getenv_process envBadJump wInit wName).outcome = Outcome.ret 1 :=
  ⟨restore_jump_written_in_scratch.1 wEnv wInit wName [] rfl rfl rfl rfl rfl rfl
    rfl (by decide) rfl rfl rfl rfl rfl rfl rfl rfl rfl rfl rfl rfl rfl rfl rfl
    rfl rfl rfl rfl rfl rfl
    (fun x h1 h2 => Or.inl (by
      have hr : rip0 wInit = 4096 := rfl
      have hm : mmOf wEnv wInit = 65536 := rfl
      omega)),
   restore_jump_written_in_scratch.2 envBadJump wInit wName [] rfl rfl rfl rfl
    rfl rfl rfl (by decide) rfl rfl rfl rfl rfl rfl rfl rfl rfl rfl rfl rfl rfl
    (by decide)⟩

/-- C9: `poke_text` rejects any length that is not a multiple of the
word size (8) before issuing any ptrace request (empty event list), and
every length the engine passes to it — the 8-byte words `new_word`,
`old_word` and the jmp word, and the power-of-two trampoline block — is
a multiple of 8. -/
theorem poke_text_word_alignment :
    (∀ (mem : Nat → Nat) (addr : Nat) (new : List Nat), new.length % 8 ≠ 0 →
      poke_text mem addr new = (none, [])) ∧
    (∀ m, blocksizeOf m % 8 = 0) ∧
    (∀ env : Env, (newWord env).length % 8 = 0) ∧
    (∀ env : Env, (jmpWord env).length % 8 = 0) ∧
    (∀ init : Target, (oldw init).length % 8 = 0) ∧
    (∀ (env : Env) (init : Target) (name : List Nat),
      (trampoline env init name).length % 8 = 0) := by
  have hb : ∀ m, blocksizeOf m % 8 = 0 := by
    intro m
    obtain ⟨k, hk⟩ := blocksizeOf_dvd m
    omega
  refine ⟨?_, hb, fun env => by simp [newWord], fun env => by simp [jmpWord],
    ?_, ?_⟩
  · intro mem addr new h
    rw [poke_text, if_pos h]
  · intro init
    rw [oldw, readBytes_length]
  · intro env init name
    rw [trampoline_length]
    exact hb (memsizeOf name)

/-- C9 witness: a three-byte write is rejected with no ptrace events,
and the block size for a one-byte name is word-aligned. -/
theorem poke_text_word_alignment_witness :
    poke_text (fun _ => 0) 4096 [1, 2, 3] = (none, []) ∧
    blocksizeOf (memsizeOf wName) % 8 = 0 :=
  ⟨poke_text_word_alignment.1 (fun _ => 0) 4096 [1, 2, 3] (by decide),
   poke_text_word_alignment.2.1 (memsizeOf wName)⟩

theorem breakCond_word_iff (mem : Nat → Nat) (a : Nat) :
    breakCond (word32At mem a) = true ↔
      ∃ j, j < 4 ∧ mem (a + j) % 256 = 0 := by
  rw [word32At, breakCond_iff _ _ _ _ (Nat.mod_lt _ (by omega))
    (Nat.mod_lt _ (by omega)) (Nat.mod_lt _ (by omega)) (Nat.mod_lt _ (by omega))]
  constructor
  · rintro (h | h | h | h)
    · exact ⟨0, by omega, by simpa using h⟩
    · exact ⟨1, by omega, h⟩
    · exact ⟨2, by omega, h⟩
    · exact ⟨3, by omega, h⟩
  · rintro ⟨j, hj, h⟩
    match j, hj with
    | 0, _ => left; simpa using h
    | 1, _ => right; left; exact h
    | 2, _ => right; right; left; exact h
    | 3, _ => right; right; right; exact h

theorem scanWords_isSome_iff (mem : Nat → Nat) : ∀ (fuel addr : Nat),
    (scanWords mem addr fuel).isSome = true ↔
      ∃ k, k < fuel ∧ breakCond (word32At mem (addr + 4 * k)) = true := by
  intro fuel
  induction fuel with
  | zero => intro addr; simp [scanWords]
  | succ f ih =>
    intro addr
    rw [scanWords]
    by_cases h : breakCond (word32At mem addr) = true
    · rw [if_pos h]
      refine iff_of_true rfl ⟨0, by omega, ?_⟩
      simpa using h
    · rw [if_neg h]
      cases hsc : scanWords mem (addr + 4) f with
      | none =>
        have hih := ih (addr + 4)
        rw [hsc] at hih
        simp only [Option.isSome_none, Bool.false_eq_true, false_iff,
          not_exists] at hih
        simp only [Option.map_none', Option.isSome_none, Bool.false_eq_true,
          false_iff, not_exists]
        intro k
        match k with
        | 0 =>
          intro hcontra
          exact h (by simpa using hcontra.2)
        | k + 1 =>
          intro hcontra
          have harith : addr + 4 * (k + 1) = addr + 4 + 4 * k := by omega
          rw [harith] at hcontra
          exact hih k ⟨by omega, hcontra.2⟩
      | some n =>
        have hih := ih (addr + 4)
        rw [hsc] at hih
        simp only [Option.isSome_some, true_iff] at hih
        obtain ⟨k, hk, hbk⟩ := hih
        refine iff_of_true rfl ⟨k + 1, by omega, ?_⟩
        have harith : addr + 4 * (k + 1) = addr + 4 + 4 * k := by omega
        rw [harith]
        exact hbk

theorem scanWords_allOnes (mem : Nat → Nat) : ∀ (fuel addr : Nat),
    (∀ a, addr ≤ a → mem a % 256 = 255) → scanWords mem addr fuel = none := by
  intro fuel
  induction fuel with
  | zero => intro addr _; rfl
  | succ f ih =>
    intro addr h
    rw [scanWords]
    have hw : word32At mem addr = 4294967295 := by
      rw [word32At, h addr (by omega), h (addr + 1) (by omega),
        h (addr + 2) (by omega), h (addr + 3) (by omega)]
    rw [hw, if_neg (by rw [breakCond_allOnes]; simp)]
    rw [ih (addr + 4) (fun a ha => h a (by omega))]
    rfl

/-- C10: for a non-null result the scan loop terminates exactly when some
four-byte word at or after the returned address contains a zero byte;
and a PTRACE_PEEKDATA failure — whose -1 return is read back as the
all-ones word 4294967295 — does not satisfy the break condition, so a
memory region that reads as all ones (as repeated peek failures do)
never terminates the loop: the error is not detected. -/
theorem scan_terminates_iff_zero_byte : ∀ (mem : Nat → Nat) (addr : Nat),
    (∀ fuel, (scanWords mem addr fuel).isSome = true ↔
      ∃ k, k < fuel ∧ ∃ j, j < 4 ∧ mem (addr + 4 * k + j) % 256 = 0) ∧
    breakCond 4294967295 = false ∧
    ((∀ a, addr ≤ a → mem a % 256 = 255) →
      ∀ fuel, scanWords mem addr fuel = none) := by
  intro mem addr
  refine ⟨?_, breakCond_allOnes, fun h fuel => scanWords_allOnes mem fuel addr h⟩
  intro fuel
  rw [scanWords_isSome_iff mem fuel addr]
  constructor
  · rintro ⟨k, hk, hbk⟩
    exact ⟨k, hk, (breakCond_word_iff mem (addr + 4 * k)).mp hbk⟩
  · rintro ⟨k, hk, hj⟩
    exact ⟨k, hk, (breakCond_word_iff mem (addr + 4 * k)).mpr hj⟩

/-- C10 witness: an all-ones memory (every peek failing) never breaks the
loop; the fixture memory with a NUL two bytes past 70000 does. -/
theorem scan_terminates_iff_zero_byte_witness :
    scanWords (fun _ => 255) 0 5 = none ∧
    (scanWords wMem 70000 3).isSome = true :=
  ⟨(scan_terminates_iff_zero_byte (fun _ => 255) 0).2.2 (fun a _ => rfl) 5,
   ((scan_terminates_iff_zero_byte wMem 70000).1 3).mpr
     ⟨0, by omega, 2, by omega, by decide⟩⟩
